import Mathlib

/-!
Shallow embedding of `src/app.py` (a Gradio demo that calls a remote
image-generation API) and proofs about its request-handling pipeline.

External collaborators (the PIL image library, the `requests` HTTP client,
the filesystem and the uuid generator) are modelled as an explicit
environment `Env`; the `base64` module is modelled concretely (RFC 4648).
A `Trace` records the network calls issued and the files written.
-/

namespace GeminiApp

abbrev Byte := Fin 256

abbrev Bytes := List Byte

/-- The standard base64 alphabet used by Python's `base64.b64encode`. -/
def b64Alphabet : List Char :=
  "ABCDEFGHIJKLMNOPQRSTUVWXYZabcdefghijklmnopqrstuvwxyz0123456789+/".toList

/-- The character encoding a 6-bit group. -/
def b64Char (n : Nat) : Char :=
  b64Alphabet.getD n 'A'

/-- Inverse lookup of `b64Char` over the 64 valid sextets. -/
def b64DecChar (c : Char) : Option (Fin 64) :=
  (List.finRange 64).find? (fun i => b64Char i.val == c)

/-- First output byte of a decoded quartet. -/
def byteA (v1 v2 : Fin 64) : Byte :=
  ⟨v1.val * 4 + v2.val / 16, by have h1 := v1.isLt; have h2 := v2.isLt; omega⟩

/-- Second output byte of a decoded quartet. -/
def byteB (v2 v3 : Fin 64) : Byte :=
  ⟨v2.val % 16 * 16 + v3.val / 4, by have h2 := v2.isLt; have h3 := v3.isLt; omega⟩

/-- Third output byte of a decoded quartet. -/
def byteC (v3 v4 : Fin 64) : Byte :=
  ⟨v3.val % 4 * 64 + v4.val, by have h3 := v3.isLt; have h4 := v4.isLt; omega⟩

/-- Base64 encoding of a byte list, with `=` padding (RFC 4648, as
implemented by `base64.b64encode`). -/
def b64EncodeList : Bytes → List Char
  | [] => []
  | [a] => [b64Char (a.val / 4), b64Char (a.val % 4 * 16), '=', '=']
  | [a, b] => [b64Char (a.val / 4), b64Char (a.val % 4 * 16 + b.val / 16),
      b64Char (b.val % 16 * 4), '=']
  | a :: b :: c :: rest =>
    b64Char (a.val / 4) :: b64Char (a.val % 4 * 16 + b.val / 16) ::
      b64Char (b.val % 16 * 4 + c.val / 64) :: b64Char (c.val % 64) :: b64EncodeList rest

/-- Models `base64.b64encode(bs).decode("utf-8")`. -/
def b64encode (bs : Bytes) : String := String.mk (b64EncodeList bs)

/-- Base64 decoding; `none` models `base64.b64decode` raising. -/
def b64DecodeList : List Char → Option Bytes
  | [] => some []
  | c1 :: c2 :: c3 :: c4 :: rest =>
    match b64DecChar c1, b64DecChar c2 with
    | some v1, some v2 =>
      if c3 = '=' then
        if c4 = '=' then
          if rest = [] then some [byteA v1 v2] else none
        else none
      else
        match b64DecChar c3 with
        | some v3 =>
          if c4 = '=' then
            if rest = [] then some [byteA v1 v2, byteB v2 v3] else none
          else
            match b64DecChar c4 with
            | some v4 =>
              match b64DecodeList rest with
              | some bs => some (byteA v1 v2 :: byteB v2 v3 :: byteC v3 v4 :: bs)
              | none => none
            | none => none
        | none => none
    | _, _ => none
  | _ => none

/-- Models `base64.b64decode`. -/
def b64decode (s : String) : Option Bytes := b64DecodeList s.data

theorem b64DecChar_b64Char (i : Fin 64) : b64DecChar (b64Char i.val) = some i := by
  revert i
  decide

theorem b64Char_ne_pad (i : Fin 64) : b64Char i.val ≠ '=' := by
  revert i
  decide

theorem b64DecChar_b64Char_of_lt (n : Nat) (h : n < 64) :
    b64DecChar (b64Char n) = some ⟨n, h⟩ :=
  b64DecChar_b64Char ⟨n, h⟩

theorem b64Char_ne_pad_of_lt (n : Nat) (h : n < 64) : b64Char n ≠ '=' :=
  b64Char_ne_pad ⟨n, h⟩

/-- Decoding inverts encoding. -/
theorem b64_roundtrip : ∀ bs : Bytes, b64DecodeList (b64EncodeList bs) = some bs
  | [] => rfl
  | [a] => by
    have ha := a.isLt
    have h1 : a.val / 4 < 64 := by omega
    have h2 : a.val % 4 * 16 < 64 := by omega
    simp only [b64EncodeList, b64DecodeList, b64DecChar_b64Char_of_lt _ h1,
      b64DecChar_b64Char_of_lt _ h2]
    simp [byteA, Fin.ext_iff]
    omega
  | [a, b] => by
    have ha := a.isLt
    have hb := b.isLt
    have h1 : a.val / 4 < 64 := by omega
    have h2 : a.val % 4 * 16 + b.val / 16 < 64 := by omega
    have h3 : b.val % 16 * 4 < 64 := by omega
    have n3 := b64Char_ne_pad_of_lt _ h3
    simp only [b64EncodeList, b64DecodeList, b64DecChar_b64Char_of_lt _ h1,
      b64DecChar_b64Char_of_lt _ h2, b64DecChar_b64Char_of_lt _ h3]
    simp [n3, byteA, byteB, Fin.ext_iff]
    omega
  | a :: b :: c :: rest => by
    have ha := a.isLt
    have hb := b.isLt
    have hc := c.isLt
    have h1 : a.val / 4 < 64 := by omega
    have h2 : a.val % 4 * 16 + b.val / 16 < 64 := by omega
    have h3 : b.val % 16 * 4 + c.val / 64 < 64 := by omega
    have h4 : c.val % 64 < 64 := by omega
    have n3 := b64Char_ne_pad_of_lt _ h3
    have n4 := b64Char_ne_pad_of_lt _ h4
    have ih := b64_roundtrip rest
    simp only [b64EncodeList, b64DecodeList, b64DecChar_b64Char_of_lt _ h1,
      b64DecChar_b64Char_of_lt _ h2, b64DecChar_b64Char_of_lt _ h3,
      b64DecChar_b64Char_of_lt _ h4]
    simp [n3, n4, ih, byteA, byteB, byteC, Fin.ext_iff]
    omega

theorem b64EncodeList_ne_nil (a : Byte) (l : Bytes) : b64EncodeList (a :: l) ≠ [] := by
  match l with
  | [] => simp [b64EncodeList]
  | [b] => simp [b64EncodeList]
  | b :: c :: rest => simp [b64EncodeList]

theorem b64encode_ne_empty (a : Byte) (l : Bytes) : b64encode (a :: l) ≠ "" := by
  intro h
  have hdata : (b64encode (a :: l)).data = ("" : String).data := by rw [h]
  simp only [b64encode] at hdata
  exact b64EncodeList_ne_nil a l hdata

/-- A JPEG byte stream: starts with the SOI marker `FF D8`. -/
def isJpeg : Bytes → Bool
  | a :: b :: _ => a.val == 255 && b.val == 216
  | _ => false

/-! ## The response data model

Typed model of the JSON shapes `gemini_generate` reads from `resp.json()`:
`candidates[0].content.parts[]`, each part possibly carrying an
`inlineData` object (optional `data`, `mimeType` keys) or a `fileData`
object (`fileUri`, optional `mimeType`), plus optional top-level
`modelVersion` and `responseId`.  An `Option` field set to `none` models
the key being absent (or bound to JSON null). -/

structure InlineData where
  data : Option String
  mimeType : Option String
deriving DecidableEq

structure FileData where
  fileUri : Option String
  mimeType : Option String
deriving DecidableEq

structure Part where
  inlineData : Option InlineData
  fileData : Option FileData
deriving DecidableEq

structure Content where
  parts : Option (List Part)
deriving DecidableEq

structure Candidate where
  content : Option Content
deriving DecidableEq

structure GenResponse where
  candidates : Option (List Candidate)
  modelVersion : Option String
  responseId : Option String
deriving DecidableEq

/-- A `requests.post` response: HTTP status code, and the result of
`resp.json()` (`Except.error` models the JSON parse raising). -/
structure HttpResp where
  status : Nat
  json : Except String GenResponse

/-- The metadata dict built on success (exactly these five keys, in this
order). -/
structure Metadata where
  modelVersion : String
  responseId : String
  mimeType : Option String
  source : Option String
  finalImage : String
deriving DecidableEq

/-! ## Pretty-printing (model of json.dumps) -/

def jsonQuote (s : String) : String := "\"" ++ s ++ "\""

def jsonOptStr : Option String → String
  | none => "null"
  | some s => jsonQuote s

def dumpsInlineData (d : InlineData) : String :=
  "\x7b\"data\": " ++ jsonOptStr d.data ++ ", \"mimeType\": " ++ jsonOptStr d.mimeType ++ "\x7d"

def dumpsFileData (f : FileData) : String :=
  "\x7b\"fileUri\": " ++ jsonOptStr f.fileUri ++ ", \"mimeType\": " ++ jsonOptStr f.mimeType ++ "\x7d"

def dumpsOptField (f : α → String) : Option α → String
  | none => "null"
  | some a => f a

def dumpsPart (p : Part) : String :=
  "\x7b\"inlineData\": " ++ dumpsOptField dumpsInlineData p.inlineData ++
    ", \"fileData\": " ++ dumpsOptField dumpsFileData p.fileData ++ "\x7d"

def dumpsParts (ps : List Part) : String :=
  "[" ++ String.intercalate ", " (ps.map dumpsPart) ++ "]"

def dumpsContent (c : Content) : String :=
  "\x7b\"parts\": " ++ dumpsOptField dumpsParts c.parts ++ "\x7d"

def dumpsCandidate (c : Candidate) : String :=
  "\x7b\"content\": " ++ dumpsOptField dumpsContent c.content ++ "\x7d"

def dumpsCandidates (cs : List Candidate) : String :=
  "[" ++ String.intercalate ", " (cs.map dumpsCandidate) ++ "]"

/-- Models `json.dumps(data, indent=2)` on a parsed generation response. -/
def dumpsResponse (r : GenResponse) : String :=
  "\x7b\"candidates\": " ++ dumpsOptField dumpsCandidates r.candidates ++
    ", \"modelVersion\": " ++ jsonOptStr r.modelVersion ++
    ", \"responseId\": " ++ jsonOptStr r.responseId ++ "\x7d"

/-- Models `json.dumps(metadata, indent=2)`: renders exactly the five keys
modelVersion, responseId, mimeType, source, finalImage, in that order. -/
def dumpsMetadata (m : Metadata) : String :=
  "\x7b\"modelVersion\": " ++ jsonQuote m.modelVersion ++
    ", \"responseId\": " ++ jsonQuote m.responseId ++
    ", \"mimeType\": " ++ jsonOptStr m.mimeType ++
    ", \"source\": " ++ jsonOptStr m.source ++
    ", \"finalImage\": " ++ jsonQuote m.finalImage ++ "\x7d"

/-! ## The environment

`Env` models the external collaborators of `gemini_generate`: the PIL
image library (`Image.open` on a file or on in-memory bytes, `convert`,
JPEG `save`), the HTTP client (`requests.post`, `requests.get`), and the
uuid-based fresh file name.  Bitmaps and image files are opaque tokens
(`Nat`).  `Except.error e` models the underlying call raising an
exception whose `str` is `e`. -/

structure Env where
  openImg : Nat → Except String Nat
  convertRGB : Nat → Nat
  saveJpeg : Nat → Bytes
  post : Except String HttpResp
  get : String → Except String Bytes
  openBytes : Bytes → Except String Nat
  freshName : String

/-- Network calls issued and files written during one call. -/
structure Trace where
  posts : Nat
  gets : Nat
  files : List String
deriving DecidableEq

def Trace.empty : Trace := ⟨0, 0, []⟩

/-- The 4-tuple `gemini_generate` returns:
(status, image file or None, base64 text, metadata/diagnostic JSON text). -/
abbrev Result := String × Option String × String × String

/-! ## The embedded program -/

/-- Embeds `image_to_base64` (src/app.py lines 12-17):
`Image.open(img_file).convert("RGB")`, save as JPEG into a buffer,
base64-encode the buffer. -/
def image_to_base64 (env : Env) (img_file : Nat) : Except String String :=
  match env.openImg img_file with
  | .error e => .error e
  | .ok image => .ok (b64encode (env.saveJpeg (env.convertRGB image)))

/-- Embeds `save_base64_to_jpeg` (src/app.py lines 19-25): decode the
base64, reopen as an image, convert to RGB, save to a fresh JPEG file.
Returns the file name and the bytes written to the file. -/
def save_base64_to_jpeg (env : Env) (b64_data : String) : Except String (String × Bytes) :=
  match b64decode b64_data with
  | none => .error "binascii.Error: invalid base64-encoded string"
  | some img_bytes =>
    match env.openBytes img_bytes with
    | .error e => .error e
    | .ok img => .ok (env.freshName, env.saveJpeg (env.convertRGB img))

/-- Embeds `data.get("candidates", [{}])[0].get("content", {}).get("parts", [])`
(src/app.py line 76).  An empty `candidates` list makes `[0]` raise
IndexError. -/
def getParts (data : GenResponse) : Except String (List Part) :=
  match data.candidates.getD [{ content := none }] with
  | [] => .error "IndexError: list index out of range"
  | c :: _ => .ok (((c.content.getD { parts := none }).parts).getD [])

/-- Embeds the `for part in parts` loop (src/app.py lines 81-93): the
first part carrying `inlineData` or `fileData` wins; a `fileData` part
triggers one `requests.get` on its `fileUri` (KeyError if the key is
missing).  Returns `(img_b64, mime_type, source_used)` and the number of
GET requests issued. -/
def extractImage (env : Env) : List Part → Except String (Option String × Option String × Option String) × Nat
  | [] => (.ok (none, none, none), 0)
  | part :: rest =>
    match part.inlineData with
    | some d => (.ok (d.data, d.mimeType, some "inlineData"), 0)
    | none =>
      match part.fileData with
      | some fd =>
        match fd.fileUri with
        | none => (.error "KeyError: fileUri", 0)
        | some file_uri =>
          match env.get file_uri with
          | .error e => (.error e, 1)
          | .ok content =>
            (.ok (some (b64encode content), some (fd.mimeType.getD "image/jpeg"), some "fileData"), 1)
      | none => extractImage env rest

/-- The body of the `try:` block of `gemini_generate` (src/app.py lines
33-115).  `Except.error e` models an exception escaping to the
top-level handler. -/
def geminiBody (env : Env) (prompt : String) (influencer_img product_img : Nat) :
    Except String Result × Trace :=
  match image_to_base64 env influencer_img with
  | .error e => (.error e, Trace.empty)
  | .ok _influencer_b64 =>
  match image_to_base64 env product_img with
  | .error e => (.error e, Trace.empty)
  | .ok _product_b64 =>
  match env.post with
  | .error e => (.error e, ⟨1, 0, []⟩)
  | .ok resp =>
    if resp.status ≠ 200 then
      match resp.json with
      | .error e => (.error e, ⟨1, 0, []⟩)
      | .ok body =>
        (.ok ("❌ API Error " ++ toString resp.status, none, "", dumpsResponse body), ⟨1, 0, []⟩)
    else
      match resp.json with
      | .error e => (.error e, ⟨1, 0, []⟩)
      | .ok data =>
      match getParts data with
      | .error e => (.error e, ⟨1, 0, []⟩)
      | .ok parts =>
      match extractImage env parts with
      | (.error e, g) => (.error e, ⟨1, g, []⟩)
      | (.ok (img_b64, mime_type, source_used), g) =>
        match img_b64 with
        | none => (.ok ("⚠️ No image found in response", none, "", dumpsResponse data), ⟨1, g, []⟩)
        | some s =>
          if s = "" then
            (.ok ("⚠️ No image found in response", none, "", dumpsResponse data), ⟨1, g, []⟩)
          else
            match save_base64_to_jpeg env s with
            | .error e => (.error e, ⟨1, g, []⟩)
            | .ok (filename, file_bytes) =>
              (.ok ("✅ Success", some filename, b64encode file_bytes,
                dumpsMetadata
                  { modelVersion := data.modelVersion.getD "unknown",
                    responseId := data.responseId.getD "unknown",
                    mimeType := mime_type,
                    source := source_used,
                    finalImage := "/file=" ++ filename }),
                ⟨1, g, [filename]⟩)

/-- Embeds `gemini_generate` (src/app.py lines 29-118): the empty-API-key
short circuit, then the `try`/`except` wrapper converting any exception
into the generic failure tuple. -/
def gemini_generate (env : Env) (api_key prompt : String) (influencer_img product_img : Nat) :
    Result × Trace :=
  if api_key = "" then
    (("❌ Error: API key required", none, "", "\x7b\x7d"), Trace.empty)
  else
    match geminiBody env prompt influencer_img product_img with
    | (.ok r, t) => (r, t)
    | (.error e, t) => (("❌ Exception: " ++ e, none, "", "\x7b\x7d"), t)

/-! ## Helper lemmas about the part-scanning loop -/

theorem extractImage_skip (env : Env) (pre rest : List Part)
    (h : ∀ q ∈ pre, q.inlineData = none ∧ q.fileData = none) :
    extractImage env (pre ++ rest) = extractImage env rest := by
  induction pre with
  | nil => rfl
  | cons q qs ih =>
    have hq := h q (by simp)
    simp only [List.cons_append, extractImage, hq.1, hq.2]
    exact ih (fun x hx => h x (by simp [hx]))

theorem extractImage_all_unmatched (env : Env) (parts : List Part)
    (h : ∀ q ∈ parts, q.inlineData = none ∧ q.fileData = none) :
    extractImage env parts = (.ok (none, none, none), 0) := by
  induction parts with
  | nil => rfl
  | cons q qs ih =>
    have hq := h q (by simp)
    simp only [extractImage, hq.1, hq.2]
    exact ih (fun x hx => h x (by simp [hx]))

theorem extractImage_cons_of_match (env : Env) (p : Part) (rest : List Part)
    (h : p.inlineData ≠ none ∨ p.fileData ≠ none) :
    extractImage env (p :: rest) = extractImage env [p] := by
  cases hi : p.inlineData with
  | some d => simp only [extractImage, hi]
  | none =>
    cases hf : p.fileData with
    | some fd => simp only [extractImage, hi, hf]
    | none =>
      rcases h with h | h
      · exact absurd hi h
      · exact absurd hf h

/-! ## Claim theorems -/

/-- C1: with an empty (falsy) API key, `gemini_generate` returns the
configuration-error status with no image output and no base64 payload,
and issues no network call (0 POSTs, 0 GETs) and writes no file. -/
theorem c1_empty_key_no_network (env : Env) (prompt : String)
    (influencer_img product_img : Nat) :
    gemini_generate env "" prompt influencer_img product_img =
      (("❌ Error: API key required", none, "", "\x7b\x7d"), ⟨0, 0, []⟩) := rfl

/-- C2: on a non-200 generation response, the result is the failure status
carrying the HTTP status code, with no image, empty base64, the
pretty-printed response body as diagnostic payload, and exactly one POST
(no retry) and no GET. -/
theorem c2_http_error (env : Env) (api_key prompt : String)
    (influencer_img product_img b1 b2 : Nat) (resp : HttpResp) (body : GenResponse)
    (hkey : api_key ≠ "")
    (h1 : env.openImg influencer_img = .ok b1)
    (h2 : env.openImg product_img = .ok b2)
    (hpost : env.post = .ok resp)
    (hstatus : resp.status ≠ 200)
    (hjson : resp.json = .ok body) :
    gemini_generate env api_key prompt influencer_img product_img =
      (("❌ API Error " ++ toString resp.status, none, "", dumpsResponse body), ⟨1, 0, []⟩) := by
  simp [gemini_generate, geminiBody, image_to_base64, hkey, h1, h2, hpost, hstatus, hjson]

/-- C4: any exception raised inside the pipeline body is caught at the
top level and converted into the generic failure status with empty
image/base64/metadata outputs; `gemini_generate` returns a normal tuple. -/
theorem c4_exception_caught (env : Env) (api_key prompt : String)
    (influencer_img product_img : Nat) (e : String) (t : Trace)
    (hkey : api_key ≠ "")
    (hbody : geminiBody env prompt influencer_img product_img = (.error e, t)) :
    gemini_generate env api_key prompt influencer_img product_img =
      (("❌ Exception: " ++ e, none, "", "\x7b\x7d"), t) := by
  simp [gemini_generate, hkey, hbody]

/-- C5: the decode step consults only the first candidate (the remaining
candidates are irrelevant), and within it uses the first part carrying
`inlineData` or `fileData`: non-matching earlier parts are skipped and
everything after the first matching part is ignored. -/
theorem c5_first_candidate_first_part (env : Env) (c : Candidate)
    (cs cs' : List Candidate) (mv rid mv' rid' : Option String)
    (pre suf suf' : List Part) (p : Part)
    (hpre : ∀ q ∈ pre, q.inlineData = none ∧ q.fileData = none)
    (hmatch : p.inlineData ≠ none ∨ p.fileData ≠ none) :
    getParts { candidates := some (c :: cs), modelVersion := mv, responseId := rid } =
      getParts { candidates := some (c :: cs'), modelVersion := mv', responseId := rid' } ∧
    extractImage env (pre ++ p :: suf) = extractImage env [p] ∧
    extractImage env (pre ++ p :: suf) = extractImage env (pre ++ p :: suf') := by
  refine ⟨rfl, ?_, ?_⟩
  · rw [extractImage_skip env pre (p :: suf) hpre]
    exact extractImage_cons_of_match env p suf hmatch
  · rw [extractImage_skip env pre (p :: suf) hpre, extractImage_skip env pre (p :: suf') hpre,
      extractImage_cons_of_match env p suf hmatch, extractImage_cons_of_match env p suf' hmatch]

/-- C6: a 200 response whose first candidate yields a parts list with no
`inlineData`/`fileData` part (in particular an empty parts list) produces
the empty-result status, no image, empty base64, and the pretty-printed
parsed response as diagnostic payload. -/
theorem c6_no_image_part (env : Env) (api_key prompt : String)
    (influencer_img product_img b1 b2 : Nat) (resp : HttpResp)
    (data : GenResponse) (parts : List Part)
    (hkey : api_key ≠ "")
    (h1 : env.openImg influencer_img = .ok b1)
    (h2 : env.openImg product_img = .ok b2)
    (hpost : env.post = .ok resp)
    (hstatus : resp.status = 200)
    (hjson : resp.json = .ok data)
    (hparts : getParts data = .ok parts)
    (hnone : ∀ q ∈ parts, q.inlineData = none ∧ q.fileData = none) :
    gemini_generate env api_key prompt influencer_img product_img =
      (("⚠️ No image found in response", none, "", dumpsResponse data), ⟨1, 0, []⟩) := by
  have hext := extractImage_all_unmatched env parts hnone
  simp [gemini_generate, geminiBody, image_to_base64, hkey, h1, h2, hpost, hstatus, hjson,
    hparts, hext]

/-- C9: if the first matching part carries an `inlineData` object whose
`data` field is absent or the empty string, the result is the
empty-result status (not success, not an exception). -/
theorem c9_falsy_inline_data (env : Env) (api_key prompt : String)
    (influencer_img product_img b1 b2 : Nat) (resp : HttpResp)
    (data : GenResponse) (pre suf : List Part) (p : Part) (d : InlineData)
    (hkey : api_key ≠ "")
    (h1 : env.openImg influencer_img = .ok b1)
    (h2 : env.openImg product_img = .ok b2)
    (hpost : env.post = .ok resp)
    (hstatus : resp.status = 200)
    (hjson : resp.json = .ok data)
    (hparts : getParts data = .ok (pre ++ p :: suf))
    (hpre : ∀ q ∈ pre, q.inlineData = none ∧ q.fileData = none)
    (hp : p.inlineData = some d)
    (hd : d.data = none ∨ d.data = some "") :
    gemini_generate env api_key prompt influencer_img product_img =
      (("⚠️ No image found in response", none, "", dumpsResponse data), ⟨1, 0, []⟩) := by
  have hext : extractImage env (pre ++ p :: suf) =
      (.ok (d.data, d.mimeType, some "inlineData"), 0) := by
    rw [extractImage_skip env pre (p :: suf) hpre]
    simp only [extractImage, hp]
  rcases hd with hd | hd
  · simp [gemini_generate, geminiBody, image_to_base64, hkey, h1, h2, hpost, hstatus, hjson,
      hparts, hext, hd]
  · simp [gemini_generate, geminiBody, image_to_base64, hkey, h1, h2, hpost, hstatus, hjson,
      hparts, hext, hd]

/-- C3 (amended): when the first matching part is a file reference, the
loop issues exactly one GET to the referenced URI, base64-encodes the
retrieved bytes, defaults the MIME type to "image/jpeg" when absent, and
marks the source as "fileData" (the string the code actually uses; the
claim's "fileRef" label does not occur). -/
theorem c3_fileref_one_get (env : Env) (pre suf : List Part) (p : Part)
    (fd : FileData) (file_uri : String) (content : Bytes)
    (hpre : ∀ q ∈ pre, q.inlineData = none ∧ q.fileData = none)
    (hinline : p.inlineData = none)
    (hfd : p.fileData = some fd)
    (huri : fd.fileUri = some file_uri)
    (hget : env.get file_uri = .ok content) :
    extractImage env (pre ++ p :: suf) =
      (.ok (some (b64encode content), some (fd.mimeType.getD "image/jpeg"), some "fileData"), 1) := by
  rw [extractImage_skip env pre (p :: suf) hpre]
  simp only [extractImage, hinline, hfd, huri, hget]

/-- C7: for an input the image library can open, and with the library
writing well-formed JPEG streams, `image_to_base64` converts to RGB,
re-encodes as JPEG, and returns a non-empty base64 string that decodes
back to that valid JPEG byte stream. -/
theorem c7_image_to_base64_valid (env : Env) (img_file image : Nat)
    (hopen : env.openImg img_file = .ok image)
    (hjpeg : ∀ b, isJpeg (env.saveJpeg b) = true) :
    image_to_base64 env img_file =
      .ok (b64encode (env.saveJpeg (env.convertRGB image))) ∧
    b64encode (env.saveJpeg (env.convertRGB image)) ≠ "" ∧
    b64decode (b64encode (env.saveJpeg (env.convertRGB image))) =
      some (env.saveJpeg (env.convertRGB image)) ∧
    isJpeg (env.saveJpeg (env.convertRGB image)) = true := by
  refine ⟨by simp [image_to_base64, hopen], ?_, b64_roundtrip _, hjpeg _⟩
  have hj := hjpeg (env.convertRGB image)
  rcases hbs : env.saveJpeg (env.convertRGB image) with _ | ⟨a, l⟩
  · rw [hbs] at hj
    simp [isJpeg] at hj
  · exact b64encode_ne_empty a l

/-- C8: on a successful decode where the response lacks `modelVersion`
and `responseId`, the call succeeds and the metadata payload renders
exactly the five keys modelVersion, responseId, mimeType, source,
finalImage, with the two missing fields defaulting to "unknown". -/
theorem c8_metadata_unknown_defaults (env : Env) (api_key prompt : String)
    (influencer_img product_img b1 b2 : Nat) (resp : HttpResp)
    (data : GenResponse) (parts : List Part) (s : String)
    (mime src : Option String) (g : Nat) (bytes : Bytes) (img : Nat)
    (hkey : api_key ≠ "")
    (h1 : env.openImg influencer_img = .ok b1)
    (h2 : env.openImg product_img = .ok b2)
    (hpost : env.post = .ok resp)
    (hstatus : resp.status = 200)
    (hjson : resp.json = .ok data)
    (hparts : getParts data = .ok parts)
    (hextract : extractImage env parts = (.ok (some s, mime, src), g))
    (hs : s ≠ "")
    (hdec : b64decode s = some bytes)
    (hopenb : env.openBytes bytes = .ok img)
    (hmv : data.modelVersion = none)
    (hrid : data.responseId = none) :
    gemini_generate env api_key prompt influencer_img product_img =
      (("✅ Success", some env.freshName,
        b64encode (env.saveJpeg (env.convertRGB img)),
        dumpsMetadata
          { modelVersion := "unknown", responseId := "unknown",
            mimeType := mime, source := src,
            finalImage := "/file=" ++ env.freshName }),
       ⟨1, g, [env.freshName]⟩) := by
  simp [gemini_generate, geminiBody, image_to_base64, save_base64_to_jpeg, hkey, h1, h2,
    hpost, hstatus, hjson, hparts, hextract, hs, hdec, hopenb, hmv, hrid]

theorem geminiBody_ok_shape (env : Env) (prompt : String)
    (influencer_img product_img : Nat) (r : Result) (t : Trace)
    (h : geminiBody env prompt influencer_img product_img = (.ok r, t)) :
    r.1 = "✅ Success" ∨ (r.2.1 = none ∧ r.2.2.1 = "" ∧ t.files = []) := by
  unfold geminiBody at h
  repeat' split at h
  all_goals simp at h
  all_goals obtain ⟨h1, h2⟩ := h
  all_goals subst h2
  all_goals subst h1
  all_goals simp

theorem geminiBody_error_files (env : Env) (prompt : String)
    (influencer_img product_img : Nat) (e : String) (t : Trace)
    (h : geminiBody env prompt influencer_img product_img = (.error e, t)) :
    t.files = [] := by
  unfold geminiBody at h
  repeat' split at h
  all_goals simp at h
  all_goals obtain ⟨h1, h2⟩ := h
  all_goals subst h2
  all_goals simp [Trace.empty]

/-- C10: every non-success result of `gemini_generate` has `None` in the
image slot, an empty base64 output, and no file written; a saved file is
produced only with the success status. -/
theorem c10_error_outputs_empty (env : Env) (api_key prompt : String)
    (influencer_img product_img : Nat) (status : String) (img : Option String)
    (b64 meta : String) (t : Trace)
    (h : gemini_generate env api_key prompt influencer_img product_img =
      ((status, img, b64, meta), t))
    (hst : status ≠ "✅ Success") :
    img = none ∧ b64 = "" ∧ t.files = [] := by
  by_cases hk : api_key = ""
  · rw [hk] at h
    have h0 : gemini_generate env "" prompt influencer_img product_img =
        (("❌ Error: API key required", none, "", "\x7b\x7d"), ⟨0, 0, []⟩) := rfl
    rw [h0] at h
    simp only [Prod.mk.injEq] at h
    obtain ⟨⟨hs, hi, hb, hm⟩, ht⟩ := h
    exact ⟨hi.symm, hb.symm, by rw [← ht]⟩
  · rcases hbody : geminiBody env prompt influencer_img product_img with ⟨res, t'⟩
    cases res with
    | error e =>
      have h0 : gemini_generate env api_key prompt influencer_img product_img =
          (("❌ Exception: " ++ e, none, "", "\x7b\x7d"), t') := by
        simp [gemini_generate, hk, hbody]
      rw [h0] at h
      simp only [Prod.mk.injEq] at h
      obtain ⟨⟨hs, hi, hb, hm⟩, ht⟩ := h
      refine ⟨hi.symm, hb.symm, ?_⟩
      rw [← ht]
      exact geminiBody_error_files env prompt influencer_img product_img e t' hbody
    | ok r =>
      have h0 : gemini_generate env api_key prompt influencer_img product_img = (r, t') := by
        simp [gemini_generate, hk, hbody]
      rw [h0] at h
      simp only [Prod.mk.injEq] at h
      obtain ⟨hr, ht⟩ := h
      rcases geminiBody_ok_shape env prompt influencer_img product_img r t' hbody with
        hsucc | ⟨hi, hb, hf⟩
      · rw [hr] at hsucc
        exact absurd hsucc hst
      · rw [hr] at hi hb
        rw [ht] at hf
        exact ⟨hi, hb, hf⟩

/-! ## Concrete environments for the witnesses -/

/-- A two-byte JPEG stream (just the SOI marker) used as library output. -/
def jpegBytes : Bytes := [⟨255, by omega⟩, ⟨216, by omega⟩]

def bodyC2 : GenResponse :=
  { candidates := none, modelVersion := none, responseId := none }

def respC2 : HttpResp := { status := 403, json := .ok bodyC2 }

def envC2 : Env :=
  { openImg := fun _ => .ok 0, convertRGB := fun b => b, saveJpeg := fun _ => jpegBytes,
    post := .ok respC2, get := fun _ => .error "ConnectionError",
    openBytes := fun _ => .error "UnidentifiedImageError", freshName := "generated_0.jpeg" }

def fdC3 : FileData := { fileUri := some "https://files/abc", mimeType := none }

def partC3 : Part := { inlineData := none, fileData := some fdC3 }

def envC3 : Env :=
  { openImg := fun _ => .ok 0, convertRGB := fun b => b, saveJpeg := fun _ => jpegBytes,
    post := .error "unused", get := fun _ => .ok jpegBytes,
    openBytes := fun _ => .ok 0, freshName := "generated_0.jpeg" }

def envC4 : Env :=
  { openImg := fun _ => .error "cannot identify image file", convertRGB := fun b => b,
    saveJpeg := fun _ => jpegBytes, post := .error "unused",
    get := fun _ => .error "unused", openBytes := fun _ => .error "unused",
    freshName := "generated_0.jpeg" }

def partBlank : Part := { inlineData := none, fileData := none }

def partC5 : Part :=
  { inlineData := some { data := some "x", mimeType := none }, fileData := none }

def candC5 : Candidate := { content := some { parts := some [partC5] } }

def dataC6 : GenResponse :=
  { candidates := some [{ content := some { parts := some [] } }],
    modelVersion := none, responseId := none }

def respC6 : HttpResp := { status := 200, json := .ok dataC6 }

def envC6 : Env :=
  { openImg := fun _ => .ok 0, convertRGB := fun b => b, saveJpeg := fun _ => jpegBytes,
    post := .ok respC6, get := fun _ => .error "ConnectionError",
    openBytes := fun _ => .error "UnidentifiedImageError", freshName := "generated_0.jpeg" }

def envC7 : Env :=
  { openImg := fun _ => .ok 0, convertRGB := fun b => b, saveJpeg := fun _ => jpegBytes,
    post := .error "unused", get := fun _ => .error "unused",
    openBytes := fun _ => .error "unused", freshName := "generated_0.jpeg" }

def inlineC8 : InlineData := { data := some "/9g=", mimeType := some "image/png" }

def partC8 : Part := { inlineData := some inlineC8, fileData := none }

def dataC8 : GenResponse :=
  { candidates := some [{ content := some { parts := some [partC8] } }],
    modelVersion := none, responseId := none }

def respC8 : HttpResp := { status := 200, json := .ok dataC8 }

def envC8 : Env :=
  { openImg := fun _ => .ok 0, convertRGB := fun b => b, saveJpeg := fun _ => jpegBytes,
    post := .ok respC8, get := fun _ => .error "unused",
    openBytes := fun _ => .ok 0, freshName := "generated_deadbeef.jpeg" }

def dC9 : InlineData := { data := none, mimeType := none }

def partC9 : Part := { inlineData := some dC9, fileData := none }

def dataC9 : GenResponse :=
  { candidates := some [{ content := some { parts := some [partC9] } }],
    modelVersion := none, responseId := none }

def respC9 : HttpResp := { status := 200, json := .ok dataC9 }

def envC9 : Env :=
  { openImg := fun _ => .ok 0, convertRGB := fun b => b, saveJpeg := fun _ => jpegBytes,
    post := .ok respC9, get := fun _ => .error "unused",
    openBytes := fun _ => .error "unused", freshName := "generated_0.jpeg" }

/-! ## Witnesses and the C3 counterexample -/

/-- C2 witness: a concrete 403 response exercises the HTTP-error path. -/
theorem c2_http_error_witness :
    (("k" : String) ≠ "" ∧ envC2.openImg 0 = .ok 0 ∧ envC2.openImg 1 = .ok 0 ∧
      envC2.post = .ok respC2 ∧ respC2.status ≠ 200 ∧ respC2.json = .ok bodyC2) ∧
    gemini_generate envC2 "k" "p" 0 1 =
      (("❌ API Error " ++ toString respC2.status, none, "", dumpsResponse bodyC2), ⟨1, 0, []⟩) :=
  ⟨⟨by decide, rfl, rfl, rfl, by decide, rfl⟩,
    c2_http_error envC2 "k" "p" 0 1 0 0 respC2 bodyC2 (by decide) rfl rfl rfl (by decide) rfl⟩

/-- C3 counterexample: on a response whose only image part is a file
reference, the code marks the source field with the string "fileData",
not "fileRef" as the claim states. -/
theorem c3_source_counterexample :
    extractImage envC3 [partC3] =
      (.ok (some "/9g=", some "image/jpeg", some "fileData"), 1) ∧
    extractImage envC3 [partC3] ≠
      (.ok (some "/9g=", some "image/jpeg", some "fileRef"), 1) := by
  refine ⟨rfl, ?_⟩
  intro hc
  rw [(show extractImage envC3 [partC3] =
    (.ok (some "/9g=", some "image/jpeg", some "fileData"), 1) from rfl)] at hc
  simp at hc

/-- C3 (amended) witness: a concrete file-reference part triggers exactly
one GET and yields the base64 of the fetched bytes with the default MIME
type and source "fileData". -/
theorem c3_fileref_one_get_witness :
    (partC3.inlineData = none ∧ fdC3.fileUri = some "https://files/abc" ∧
      envC3.get "https://files/abc" = .ok jpegBytes) ∧
    extractImage envC3 ([] ++ partC3 :: []) =
      (.ok (some (b64encode jpegBytes), some (fdC3.mimeType.getD "image/jpeg"),
        some "fileData"), 1) :=
  ⟨⟨rfl, rfl, rfl⟩,
    c3_fileref_one_get envC3 [] [] partC3 fdC3 "https://files/abc" jpegBytes
      (by simp) rfl rfl rfl rfl⟩

/-- C4 witness: an unreadable input image raises inside the pipeline and
is converted to the generic failure tuple. -/
theorem c4_exception_caught_witness :
    (("k" : String) ≠ "" ∧
      geminiBody envC4 "p" 0 1 = (.error "cannot identify image file", Trace.empty)) ∧
    gemini_generate envC4 "k" "p" 0 1 =
      (("❌ Exception: " ++ "cannot identify image file", none, "", "\x7b\x7d"), Trace.empty) :=
  ⟨⟨by decide, rfl⟩,
    c4_exception_caught envC4 "k" "p" 0 1 "cannot identify image file" Trace.empty
      (by decide) rfl⟩

/-- C5 witness: with a non-matching part before and parts/candidates
after the first matching part, the selection is unchanged. -/
theorem c5_first_candidate_first_part_witness :
    (partBlank.inlineData = none ∧ partC5.inlineData ≠ none) ∧
    (getParts { candidates := some (candC5 :: [candC5]),
                modelVersion := some "m",
                responseId := none } =
      getParts { candidates := some (candC5 :: []),
                 modelVersion := none,
                 responseId := some "r" } ∧
    extractImage envC4 ([partBlank] ++ partC5 :: [partBlank]) = extractImage envC4 [partC5] ∧
    extractImage envC4 ([partBlank] ++ partC5 :: [partBlank]) =
      extractImage envC4 ([partBlank] ++ partC5 :: [])) :=
  ⟨⟨rfl, by decide⟩,
    c5_first_candidate_first_part envC4 candC5 [candC5] [] (some "m") none none (some "r")
      [partBlank] [partBlank] [] partC5 (by decide) (by decide)⟩

/-- C6 witness: a 200 response whose first candidate has an empty parts
list yields the empty-result status. -/
theorem c6_no_image_part_witness :
    (respC6.status = 200 ∧ getParts dataC6 = .ok []) ∧
    gemini_generate envC6 "k" "p" 0 1 =
      (("⚠️ No image found in response", none, "", dumpsResponse dataC6), ⟨1, 0, []⟩) :=
  ⟨⟨rfl, rfl⟩,
    c6_no_image_part envC6 "k" "p" 0 1 0 0 respC6 dataC6 []
      (by decide) rfl rfl rfl rfl rfl rfl (by simp)⟩

/-- C7 witness: a readable image and a library that writes JPEG streams
give a non-empty base64 output decoding to a valid JPEG. -/
theorem c7_image_to_base64_valid_witness :
    (envC7.openImg 0 = .ok 0 ∧ isJpeg (envC7.saveJpeg 0) = true) ∧
    (image_to_base64 envC7 0 = .ok (b64encode (envC7.saveJpeg (envC7.convertRGB 0))) ∧
      b64encode (envC7.saveJpeg (envC7.convertRGB 0)) ≠ "" ∧
      b64decode (b64encode (envC7.saveJpeg (envC7.convertRGB 0))) =
        some (envC7.saveJpeg (envC7.convertRGB 0)) ∧
      isJpeg (envC7.saveJpeg (envC7.convertRGB 0)) = true) :=
  ⟨⟨rfl, rfl⟩, c7_image_to_base64_valid envC7 0 0 rfl (fun _ => rfl)⟩

/-- C8 witness: a 200 response with an inline image and no top-level
modelVersion/responseId succeeds with both metadata fields "unknown". -/
theorem c8_metadata_unknown_defaults_witness :
    (dataC8.modelVersion = none ∧ dataC8.responseId = none ∧
      extractImage envC8 [partC8] = (.ok (some "/9g=", some "image/png", some "inlineData"), 0) ∧
      b64decode "/9g=" = some jpegBytes) ∧
    gemini_generate envC8 "k" "p" 0 1 =
      (("✅ Success", some envC8.freshName,
        b64encode (envC8.saveJpeg (envC8.convertRGB 0)),
        dumpsMetadata
          { modelVersion := "unknown", responseId := "unknown",
            mimeType := some "image/png", source := some "inlineData",
            finalImage := "/file=" ++ envC8.freshName }),
       ⟨1, 0, [envC8.freshName]⟩) :=
  ⟨⟨rfl, rfl, rfl, rfl⟩,
    c8_metadata_unknown_defaults envC8 "k" "p" 0 1 0 0 respC8 dataC8 [partC8] "/9g="
      (some "image/png") (some "inlineData") 0 jpegBytes 0
      (by decide) rfl rfl rfl rfl rfl rfl rfl (by decide) rfl rfl rfl rfl⟩

/-- C9 witness: an inlineData part whose data key is absent yields the
empty-result status. -/
theorem c9_falsy_inline_data_witness :
    (dC9.data = none ∧ partC9.inlineData = some dC9) ∧
    gemini_generate envC9 "k" "p" 0 1 =
      (("⚠️ No image found in response", none, "", dumpsResponse dataC9), ⟨1, 0, []⟩) :=
  ⟨⟨rfl, rfl⟩,
    c9_falsy_inline_data envC9 "k" "p" 0 1 0 0 respC9 dataC9 [] [] partC9 dC9
      (by decide) rfl rfl rfl rfl rfl rfl (by simp) rfl (Or.inl rfl)⟩

/-- C10 witness: the missing-API-key result has an empty image slot,
empty base64, and no file written. -/
theorem c10_error_outputs_empty_witness :
    (gemini_generate envC4 "" "p" 0 1 =
      (("❌ Error: API key required", none, "", "\x7b\x7d"), ⟨0, 0, []⟩) ∧
      ("❌ Error: API key required" : String) ≠ "✅ Success") ∧
    ((none : Option String) = none ∧ ("" : String) = "" ∧ (⟨0, 0, []⟩ : Trace).files = []) :=
  ⟨⟨rfl, by decide⟩,
    c10_error_outputs_empty envC4 "" "p" 0 1 "❌ Error: API key required" none "" "\x7b\x7d"
      ⟨0, 0, []⟩ rfl (by decide)⟩

end GeminiApp
